import Mathlib

/-!
Shallow embedding of `src/crossterm_winapi/src/console.rs` (the `Console`
wrapper over the Windows console device API) and proofs about its
operations.

The device itself (the Win32 calls `GetNumberOfConsoleInputEvents`,
`ReadConsoleInputW`, `WriteConsoleW`, `FillConsoleOutputCharacterA`,
`FillConsoleOutputAttribute`, `GetLargestConsoleWindowSize`, ...) is
external to the repository; it is modelled as an oracle (`Device`) giving
the response of each call, and every operation additionally returns the
list of device calls it issued, so that "no device call was made" and
"the call was sized to n" are statable.
-/

set_option autoImplicit false

namespace CrosstermWinapi

/-- Raw platform device identifier (winapi `HANDLE`), opaque at this layer. -/
abbrev HANDLE := Int

/-- Opaque wrapper naming an open channel to the device.  Modelled as a plain
copyable token: the acquisition component (out of scope here, per the spec)
owns closing it. -/
structure Handle where
  raw : HANDLE
deriving DecidableEq, Repr

/-- Modelled from the spec: `Handle::from(raw identifier)` of the external
handle-acquisition component wraps the raw platform identifier with no
fallibility. -/
def Handle.fromRaw (h : HANDLE) : Handle :=
  { raw := h }

/-- `Console` from `console.rs`: wraps exactly one `Handle` and nothing else. -/
structure Console where
  handle : Handle
deriving DecidableEq, Repr

/-- Native device coordinate record (`COORD`), signed 16-bit fields. -/
structure COORD where
  x : Int
  y : Int
deriving DecidableEq, Repr

/-- Modelled from the spec: `Coord`, the external value-converter type, a
pair of zero-based unsigned cell coordinates. -/
structure Coord where
  x : Nat
  y : Nat
deriving DecidableEq, Repr

/-- Modelled from the spec: the external plain data converter
`Coord::from(COORD)`. -/
def Coord.fromNative (c : COORD) : Coord :=
  { x := c.x.toNat, y := c.y.toNat }

/-- Modelled from the spec: the external plain data converter
`COORD::from(Coord)`. -/
def COORD.fromCoord (c : Coord) : COORD :=
  { x := (c.x : Int), y := (c.y : Int) }

/-- Native device input record (`INPUT_RECORD`): a kind tag plus a union
payload, abstracted to a tag and an uninterpreted payload value. -/
structure INPUT_RECORD where
  eventType : Nat
  payload : Nat
deriving DecidableEq, Repr

/-- Modelled from the spec: `InputRecord`, a tagged variant over the event
kinds key / mouse / resize / focus / menu, with the kind-specific payload
carried through unchanged. -/
inductive InputRecord where
  | key (payload : Nat)
  | mouse (payload : Nat)
  | resize (payload : Nat)
  | focus (payload : Nat)
  | menu (payload : Nat)
  | unknown (tag : Nat) (payload : Nat)
deriving DecidableEq, Repr

/-- The native kind tag of a keyboard event (`KEY_EVENT`). -/
def KEY_EVENT : Nat := 1

/-- Modelled from the spec: the external plain data converter
`InputRecord::from(INPUT_RECORD)` decodes the native kind tag once at the
boundary and copies the kind-specific payload unchanged. -/
def InputRecord.fromNative (r : INPUT_RECORD) : InputRecord :=
  if r.eventType = 1 then .key r.payload
  else if r.eventType = 2 then .mouse r.payload
  else if r.eventType = 4 then .resize r.payload
  else if r.eventType = 8 then .menu r.payload
  else if r.eventType = 16 then .focus r.payload
  else .unknown r.eventType r.payload

/-- The error taxonomy of the layer: every fallible operation fails with
either the platform's last error forwarded verbatim (`deviceCallFailed`,
carrying `GetLastError`), or the local pre-device-call UTF-8 validation
failure (`encodingError`). -/
inductive WinError where
  | deviceCallFailed (lastError : Nat)
  | encodingError
deriving DecidableEq, Repr

/-- One call into the device driver, recording which handle it targets and
its arguments.  `closeHandle` is never issued by `Console` (the acquisition
component owns it); it is present so that "the console never closes the
handle" is statable. -/
inductive DeviceCall where
  | getNumberOfConsoleInputEvents (h : HANDLE)
  | readConsoleInput (h : HANDLE) (bufLen : Nat)
  | writeConsole (h : HANDLE) (utf16 : List Nat)
  | fillChar (h : HANDLE) (start : COORD) (count : Nat) (ch : Int)
  | fillAttr (h : HANDLE) (start : COORD) (count : Nat) (attr : Nat)
  | getLargestConsoleWindowSize (h : HANDLE)
  | setConsoleTextAttribute (h : HANDLE) (value : Nat)
  | setConsoleWindowInfo (h : HANDLE) (absolute : Bool) (rect : COORD × COORD)
  | closeHandle (h : HANDLE)
deriving DecidableEq, Repr

/-- The handle a device call targets. -/
def DeviceCall.targetHandle : DeviceCall → HANDLE
  | .getNumberOfConsoleInputEvents h => h
  | .readConsoleInput h _ => h
  | .writeConsole h _ => h
  | .fillChar h _ _ _ => h
  | .fillAttr h _ _ _ => h
  | .getLargestConsoleWindowSize h => h
  | .setConsoleTextAttribute h _ => h
  | .setConsoleWindowInfo h _ _ => h
  | .closeHandle h => h

/-- Whether a device call is a close of the handle. -/
def DeviceCall.isClose : DeviceCall → Bool
  | .closeHandle _ => true
  | _ => false

/-- Whether a device call is the batched input read primitive. -/
def DeviceCall.isRead : DeviceCall → Bool
  | .readConsoleInput _ _ => true
  | _ => false

/-- Whether a device call is the console write primitive. -/
def DeviceCall.isWrite : DeviceCall → Bool
  | .writeConsole _ _ => true
  | _ => false

/-- Oracle for the device's behaviour during one `Console` operation.

* `pendingCount`: result of `GetNumberOfConsoleInputEvents` — `none` means
  the call fails, `some n` means it reports `n` queued records.
* `readResult`: result of `ReadConsoleInputW` given the requested buffer
  length — `none` means the call fails, `some recs` means it succeeds and
  actually writes the records `recs` into the buffer (so the reported
  written count is `recs.length`).
* `junk`: the uninitialised memory contents of buffer slot `i`; slots the
  device did not write retain this junk.
* `writeConsoleResult`: result of `WriteConsoleW` — `none` fails, `some u`
  reports `u` UTF-16 units written.
* `fillCharResult` / `fillAttrResult`: results of the two fill calls —
  `none` fails, `some w` reports `w` cells written.
* `largestWindow`: the `COORD` returned by `GetLargestConsoleWindowSize`
  (its documented failure mode is returning the default/zero coordinates,
  not a failure signal).
* `lastError`: the platform's retrievable last-error value
  (`GetLastError`) after a failed call. -/
structure Device where
  pendingCount : Option Nat
  readResult : Nat → Option (List INPUT_RECORD)
  junk : Nat → INPUT_RECORD
  writeConsoleResult : Option Nat
  fillCharResult : Option Nat
  fillAttrResult : Option Nat
  largestWindow : COORD
  lastError : Nat

/-- The contents of the record buffer after a successful
`ReadConsoleInputW`: the source allocates `Vec::with_capacity(bufLen)` and
then `set_len(bufLen)`, so the buffer exposes `bufLen` slots — first the
records the device actually wrote, the rest uninitialised junk. -/
def readBuffer (dev : Device) (written : List INPUT_RECORD) (bufLen : Nat) :
    List INPUT_RECORD :=
  (written ++ (List.range bufLen).map dev.junk).take bufLen

/-- `Console::read_input` (private helper): issues one `ReadConsoleInputW`
sized to `bufLen`; on failure forwards the platform error; on success
unconditionally sets the buffer length to `bufLen` (not to the
device-reported written count) and converts `buf[..bufLen]`. -/
def read_input (c : Console) (dev : Device) (bufLen : Nat) :
    Except WinError (Nat × List InputRecord) × List DeviceCall :=
  match dev.readResult bufLen with
  | none =>
      (.error (.deviceCallFailed dev.lastError),
        [.readConsoleInput c.handle.raw bufLen])
  | some written =>
      (.ok (bufLen, (readBuffer dev written bufLen).map InputRecord.fromNative),
        [.readConsoleInput c.handle.raw bufLen])

/-- `Console::number_of_console_input_events`: one
`GetNumberOfConsoleInputEvents` call; forwards the platform error on
failure, otherwise returns the reported count without consuming records. -/
def number_of_console_input_events (c : Console) (dev : Device) :
    Except WinError Nat × List DeviceCall :=
  match dev.pendingCount with
  | none =>
      (.error (.deviceCallFailed dev.lastError),
        [.getNumberOfConsoleInputEvents c.handle.raw])
  | some n => (.ok n, [.getNumberOfConsoleInputEvents c.handle.raw])

/-- `Console::read_console_input`: queries the pending count; on zero
returns `(0, [])` without reading; otherwise issues one batched read sized
to exactly the observed count. -/
def read_console_input (c : Console) (dev : Device) :
    Except WinError (Nat × List InputRecord) × List DeviceCall :=
  match dev.pendingCount with
  | none =>
      (.error (.deviceCallFailed dev.lastError),
        [.getNumberOfConsoleInputEvents c.handle.raw])
  | some 0 => (.ok (0, []), [.getNumberOfConsoleInputEvents c.handle.raw])
  | some bufLen =>
      let r := read_input c dev bufLen
      (r.1, .getNumberOfConsoleInputEvents c.handle.raw :: r.2)

/-- `Console::read_single_input_event`: queries the pending count; on zero
returns `none` without reading; otherwise issues one read sized to exactly
1 and returns the first converted record of the resulting slice (the
source indexes `[0]`; the slice always has exactly one element, see
`read_input_len_one`). -/
def read_single_input_event (c : Console) (dev : Device) :
    Except WinError (Option InputRecord) × List DeviceCall :=
  match dev.pendingCount with
  | none =>
      (.error (.deviceCallFailed dev.lastError),
        [.getNumberOfConsoleInputEvents c.handle.raw])
  | some 0 => (.ok none, [.getNumberOfConsoleInputEvents c.handle.raw])
  | some _ =>
      let r := read_input c dev 1
      match r.1 with
      | .error e =>
          (.error e, .getNumberOfConsoleInputEvents c.handle.raw :: r.2)
      | .ok (_, recs) =>
          (.ok recs.head?, .getNumberOfConsoleInputEvents c.handle.raw :: r.2)

/-- Whether `b` is a UTF-8 continuation byte (`0x80..=0xBF`). -/
def contByte (b : Nat) : Bool :=
  0x80 ≤ b && b < 0xC0

/-- UTF-8 decoding exactly as `str::from_utf8` validates it: rejects
overlong encodings, surrogate code points and values above `0x10FFFF`;
returns the decoded scalar values on success. -/
def utf8Decode : List Nat → Option (List Nat)
  | [] => some []
  | b0 :: rest =>
    if b0 < 0x80 then
      (utf8Decode rest).map (fun cs => b0 :: cs)
    else if b0 < 0xC2 then none
    else if b0 < 0xE0 then
      match rest with
      | b1 :: rest1 =>
          if contByte b1 then
            (utf8Decode rest1).map
              (fun cs => ((b0 - 0xC0) * 64 + (b1 - 0x80)) :: cs)
          else none
      | [] => none
    else if b0 < 0xF0 then
      match rest with
      | b1 :: b2 :: rest2 =>
          if (if b0 = 0xE0 then decide (0xA0 ≤ b1) && decide (b1 < 0xC0)
              else if b0 = 0xED then decide (0x80 ≤ b1) && decide (b1 < 0xA0)
              else contByte b1) && contByte b2 then
            (utf8Decode rest2).map
              (fun cs =>
                ((b0 - 0xE0) * 4096 + (b1 - 0x80) * 64 + (b2 - 0x80)) :: cs)
          else none
      | _ => none
    else if b0 < 0xF5 then
      match rest with
      | b1 :: b2 :: b3 :: rest3 =>
          if (if b0 = 0xF0 then decide (0x90 ≤ b1) && decide (b1 < 0xC0)
              else if b0 = 0xF4 then decide (0x80 ≤ b1) && decide (b1 < 0x90)
              else contByte b1) && contByte b2 && contByte b3 then
            (utf8Decode rest3).map
              (fun cs =>
                ((b0 - 0xF0) * 262144 + (b1 - 0x80) * 4096
                  + (b2 - 0x80) * 64 + (b3 - 0x80)) :: cs)
          else none
      | _ => none
    else none

/-- UTF-16 encoding of one Unicode scalar value, as `char::encode_utf16`:
one unit below `0x10000`, a surrogate pair above. -/
def utf16Encode (cp : Nat) : List Nat :=
  if cp < 0x10000 then [cp]
  else [0xD800 + (cp - 0x10000) / 0x400, 0xDC00 + (cp - 0x10000) % 0x400]

/-- The UTF-16 unit sequence for a list of scalar values
(`str::encode_utf16().collect()`). -/
def encodeUtf16 (cps : List Nat) : List Nat :=
  (cps.map utf16Encode).flatten

/-- `Console::write_char_buffer`: validates the bytes as UTF-8 before any
device call (returning the local encoding error on failure, with no call
issued); on success re-encodes to UTF-16, issues one `WriteConsoleW`, and
on device success returns the UTF-8 byte length of the original input
(`utf8.as_bytes().len()`), ignoring the device's UTF-16-unit written
count. -/
def write_char_buffer (c : Console) (dev : Device) (buf : List Nat) :
    Except WinError Nat × List DeviceCall :=
  match utf8Decode buf with
  | none => (.error .encodingError, [])
  | some cps =>
      let utf16 := encodeUtf16 cps
      match dev.writeConsoleResult with
      | none =>
          (.error (.deviceCallFailed dev.lastError),
            [.writeConsole c.handle.raw utf16])
      | some _cellsWritten =>
          (.ok buf.length, [.writeConsole c.handle.raw utf16])

/-- The `filling_char as i8` cast of the source: truncate the code point to
its low 8 bits and reinterpret them as a signed 8-bit value. -/
def char_as_i8 (cp : Nat) : Int :=
  if cp % 256 < 128 then (cp % 256 : Int) else (cp % 256 : Int) - 256

/-- `Console::fill_whit_character`: one `FillConsoleOutputCharacterA` call
with the char narrowed by `as i8`; forwards the platform error on failure,
otherwise returns the device-reported written count unchanged. -/
def fill_whit_character (c : Console) (dev : Device) (start_location : Coord)
    (cells_to_write : Nat) (filling_char : Nat) :
    Except WinError Nat × List DeviceCall :=
  let call := DeviceCall.fillChar c.handle.raw (COORD.fromCoord start_location)
    cells_to_write (char_as_i8 filling_char)
  match dev.fillCharResult with
  | none => (.error (.deviceCallFailed dev.lastError), [call])
  | some chars_written => (.ok chars_written, [call])

/-- `Console::fill_whit_attribute`: one `FillConsoleOutputAttribute` call;
forwards the platform error on failure, otherwise returns the
device-reported written count unchanged. -/
def fill_whit_attribute (c : Console) (dev : Device) (start_location : Coord)
    (cells_to_write : Nat) (dw_attribute : Nat) :
    Except WinError Nat × List DeviceCall :=
  let call := DeviceCall.fillAttr c.handle.raw (COORD.fromCoord start_location)
    cells_to_write dw_attribute
  match dev.fillAttrResult with
  | none => (.error (.deviceCallFailed dev.lastError), [call])
  | some cells_written => (.ok cells_written, [call])

/-- `Console::largest_window_size`: one `GetLargestConsoleWindowSize` call
whose native `COORD` result is converted and returned directly — the
function is total, with no error path. -/
def largest_window_size (c : Console) (dev : Device) :
    Coord × List DeviceCall :=
  (Coord.fromNative dev.largestWindow,
    [.getLargestConsoleWindowSize c.handle.raw])

/-- `Console::set_text_attribute`: one `SetConsoleTextAttribute` call. -/
def set_text_attribute (c : Console) (dev : Device) (value : Nat)
    (success : Bool) : Except WinError Unit × List DeviceCall :=
  if success then (.ok (), [.setConsoleTextAttribute c.handle.raw value])
  else
    (.error (.deviceCallFailed dev.lastError),
      [.setConsoleTextAttribute c.handle.raw value])

/-- `impl From of Handle for Console`: wraps the given handle, with no
fallibility. -/
def Console.fromHandle (handle : Handle) : Console :=
  { handle }

/-- `impl From of HANDLE for Console`: converts the raw identifier to a
`Handle` first, then wraps it, with no fallibility. -/
def Console.fromRawHandle (handle : HANDLE) : Console :=
  { handle := Handle.fromRaw handle }

/-- All device calls issued by one invocation of each `Console` operation,
concatenated; used to state handle-targeting invariants uniformly. -/
def consoleOpCalls (c : Console) (dev : Device) (buf : List Nat)
    (start : Coord) (n : Nat) (ch : Nat) (attr : Nat) (value : Nat)
    (success : Bool) : List DeviceCall :=
  (number_of_console_input_events c dev).2 ++ (read_console_input c dev).2
    ++ (read_single_input_event c dev).2 ++ (write_char_buffer c dev buf).2
    ++ (fill_whit_character c dev start n ch).2
    ++ (fill_whit_attribute c dev start n attr).2
    ++ (largest_window_size c dev).2
    ++ (set_text_attribute c dev value success).2

/-- A sample console for concrete evaluations. -/
def consoleA : Console := Console.fromHandle { raw := 7 }

/-- The contents of an uninitialised buffer slot in the sample devices. -/
def junkRecord : INPUT_RECORD := { eventType := 0, payload := 0 }

/-- A sample native keyboard record. -/
def keyRecord : INPUT_RECORD := { eventType := 1, payload := 42 }

/-- A sample native mouse record. -/
def mouseRecord : INPUT_RECORD := { eventType := 2, payload := 9 }

/-- A sample device: zero pending events, failing reads, a write that
reports one UTF-16 unit written, a character fill that reports 3 cells
written, a rejected attribute fill, a zero largest-window answer, and last
error 5. -/
def baseDevice : Device where
  pendingCount := some 0
  readResult := fun _ => none
  junk := fun _ => junkRecord
  writeConsoleResult := some 1
  fillCharResult := some 3
  fillAttrResult := none
  largestWindow := { x := 0, y := 0 }
  lastError := 5

/-- A device exhibiting the check-then-read race: it reports 2 pending
events, but the read then succeeds while writing only 1 record into the
buffer (the device-reported written count is 1). -/
def raceDevice : Device :=
  { baseDevice with
    pendingCount := some 2
    readResult := fun n => if n = 2 then some [keyRecord] else none }

/-- A device with exactly one pending keyboard event, delivered on a read
sized to 1. -/
def oneKeyDevice : Device :=
  { baseDevice with
    pendingCount := some 1
    readResult := fun n => if n = 1 then some [keyRecord] else none }

/-- A device with two pending events, both delivered on a read sized
to 2. -/
def twoEventDevice : Device :=
  { baseDevice with
    pendingCount := some 2
    readResult := fun n => if n = 2 then some [keyRecord, mouseRecord] else none }

/-- A device with three pending events whose batched read call fails. -/
def failReadDevice : Device :=
  { baseDevice with pendingCount := some 3 }

/-! ## Helper lemmas -/

/-- The buffer exposed after a successful read always has exactly `bufLen`
slots, whatever the device actually wrote. -/
theorem readBuffer_length (dev : Device) (w : List INPUT_RECORD) (n : Nat) :
    (readBuffer dev w n).length = n := by
  simp [readBuffer]

/-- When the device writes the full requested batch, the exposed buffer is
exactly the written records. -/
theorem readBuffer_of_full (dev : Device) (w : List INPUT_RECORD) (n : Nat)
    (h : w.length = n) : readBuffer dev w n = w := by
  subst h
  simp [readBuffer]

/-- `read_input` issues exactly one batched read call, sized to `bufLen`. -/
theorem read_input_calls (c : Console) (dev : Device) (n : Nat) :
    (read_input c dev n).2 = [.readConsoleInput c.handle.raw n] := by
  unfold read_input
  cases dev.readResult n <;> rfl

/-! ## Claim theorems -/

/-- Claim C1 (evaluation at the failing input): with an observed pending
count of 2 and a successful device read that actually writes only 1 record
(device-reported written count 1), `read_console_input` still returns
count 2 and a 2-element sequence whose second element is the conversion of
the uninitialised junk slot — a record slot beyond the device-reported
written count is read and converted, contradicting the claim. -/
theorem read_console_input_converts_uninitialized_slot :
    raceDevice.readResult 2 = some [keyRecord]
    ∧ read_console_input consoleA raceDevice
      = (.ok (2, [.key 42, .unknown 0 0]),
         [.getNumberOfConsoleInputEvents 7, .readConsoleInput 7 2])
    ∧ InputRecord.fromNative junkRecord = .unknown 0 0 :=
  ⟨rfl, rfl, rfl⟩

/-- Claim C2: whenever the input bytes are valid UTF-8 and the device write
call succeeds (reporting any UTF-16-unit count), `write_char_buffer`
returns the UTF-8 byte length of the original input, and the single device
call it issued carried the UTF-16 re-encoding. -/
theorem write_char_buffer_returns_utf8_byte_count (c : Console) (dev : Device)
    (buf : List Nat) (cps : List Nat) (w : Nat)
    (hd : utf8Decode buf = some cps) (hw : dev.writeConsoleResult = some w) :
    write_char_buffer c dev buf
      = (.ok buf.length, [.writeConsole c.handle.raw (encodeUtf16 cps)]) := by
  simp [write_char_buffer, hd, hw]

/-- Claim C2 witness: the UTF-8 bytes of "é" decode to the single scalar
0xE9, whose UTF-16 encoding is 1 unit; with a device reporting 1 unit
written, the returned count is the UTF-8 byte length 2, not 1. -/
theorem write_char_buffer_returns_utf8_byte_count_witness :
    utf8Decode [0xC3, 0xA9] = some [0xE9]
    ∧ (encodeUtf16 [0xE9]).length = 1
    ∧ baseDevice.writeConsoleResult = some 1
    ∧ (write_char_buffer consoleA baseDevice [0xC3, 0xA9]).1 = .ok 2 := by
  refine ⟨by decide, by decide, rfl, ?_⟩
  rw [write_char_buffer_returns_utf8_byte_count consoleA baseDevice
    [0xC3, 0xA9] [0xE9] 1 (by decide) rfl]
  rfl

/-- Claim C3: on bytes that are not valid UTF-8, `write_char_buffer`
returns the local encoding error — a constructor distinct from
`deviceCallFailed` — and issues no device call at all. -/
theorem write_char_buffer_invalid_utf8_no_device_call (c : Console)
    (dev : Device) (buf : List Nat) (hd : utf8Decode buf = none) :
    write_char_buffer c dev buf = (.error .encodingError, [])
    ∧ ∀ e, WinError.encodingError ≠ WinError.deviceCallFailed e := by
  exact ⟨by simp [write_char_buffer, hd], fun e h => WinError.noConfusion h⟩

/-- Claim C3 witness: a lone continuation byte 0x80 is rejected before any
device call. -/
theorem write_char_buffer_invalid_utf8_no_device_call_witness :
    utf8Decode [0x80] = none
    ∧ write_char_buffer consoleA baseDevice [0x80] = (.error .encodingError, []) := by
  refine ⟨by decide, ?_⟩
  exact (write_char_buffer_invalid_utf8_no_device_call consoleA baseDevice
    [0x80] (by decide)).1

/-- Claim C4: with a reported pending count of zero, `read_console_input`
returns success with `(0, [])` and `read_single_input_event` returns
success with no event, and in both cases the only device call issued is
the count query — the batched read primitive is never called. -/
theorem zero_pending_fast_path (c : Console) (dev : Device)
    (h0 : dev.pendingCount = some 0) :
    read_console_input c dev
      = (.ok (0, []), [.getNumberOfConsoleInputEvents c.handle.raw])
    ∧ read_single_input_event c dev
      = (.ok none, [.getNumberOfConsoleInputEvents c.handle.raw])
    ∧ (∀ call ∈ (read_console_input c dev).2, call.isRead = false)
    ∧ (∀ call ∈ (read_single_input_event c dev).2, call.isRead = false) := by
  refine ⟨?_, ?_, ?_, ?_⟩ <;>
    simp [read_console_input, read_single_input_event, h0, DeviceCall.isRead]

/-- Claim C4 witness: the fast path evaluated on a concrete device with
zero pending events. -/
theorem zero_pending_fast_path_witness :
    read_console_input consoleA baseDevice
      = (.ok (0, []), [.getNumberOfConsoleInputEvents 7])
    ∧ read_single_input_event consoleA baseDevice
      = (.ok none, [.getNumberOfConsoleInputEvents 7]) := by
  have h := zero_pending_fast_path consoleA baseDevice rfl
  exact ⟨h.1, h.2.1⟩

/-- Claim C5: with a nonzero pending count, `read_single_input_event`
issues one read sized to exactly 1, and when the device delivers one
record the operation returns that record converted, wrapped as present;
for a keyboard record the conversion is the key variant carrying the
native payload unchanged. -/
theorem read_single_input_event_one_record (c : Console) (dev : Device)
    (n : Nat) (rec : INPUT_RECORD) (hn : dev.pendingCount = some n)
    (hne : n ≠ 0) (hr : dev.readResult 1 = some [rec]) :
    read_single_input_event c dev
      = (.ok (some (InputRecord.fromNative rec)),
         [.getNumberOfConsoleInputEvents c.handle.raw,
          .readConsoleInput c.handle.raw 1])
    ∧ (rec.eventType = KEY_EVENT →
        InputRecord.fromNative rec = .key rec.payload) := by
  obtain ⟨m, rfl⟩ : ∃ m, n = m + 1 := ⟨n - 1, by omega⟩
  constructor
  · simp [read_single_input_event, hn, read_input, hr,
      readBuffer_of_full dev [rec] 1 rfl]
  · intro hk
    simp [InputRecord.fromNative, KEY_EVENT] at hk ⊢
    simp [hk]

/-- Claim C5 witness: one pending keyboard event round-trips exactly. -/
theorem read_single_input_event_one_record_witness :
    InputRecord.fromNative keyRecord = .key 42
    ∧ read_single_input_event consoleA oneKeyDevice
      = (.ok (some (.key 42)),
         [.getNumberOfConsoleInputEvents 7, .readConsoleInput 7 1]) := by
  refine ⟨rfl, ?_⟩
  exact (read_single_input_event_one_record consoleA oneKeyDevice 1 keyRecord
    rfl (by decide) rfl).1

/-- Claim C6: with a nonzero pending count, on a successful batch read
delivering the whole batch, `read_console_input` returns the pair of the
count and the in-order conversion of every native record; on a failed
device read it returns the forwarded platform error and reports no
records. -/
theorem read_console_input_batch (c : Console) (dev : Device) (n : Nat)
    (hn : dev.pendingCount = some n) (hne : n ≠ 0) :
    (∀ recs, dev.readResult n = some recs → recs.length = n →
      read_console_input c dev
        = (.ok (n, recs.map InputRecord.fromNative),
           [.getNumberOfConsoleInputEvents c.handle.raw,
            .readConsoleInput c.handle.raw n]))
    ∧ (dev.readResult n = none →
      read_console_input c dev
        = (.error (.deviceCallFailed dev.lastError),
           [.getNumberOfConsoleInputEvents c.handle.raw,
            .readConsoleInput c.handle.raw n])) := by
  obtain ⟨m, rfl⟩ : ∃ m, n = m + 1 := ⟨n - 1, by omega⟩
  constructor
  · intro recs hr hlen
    simp [read_console_input, hn, read_input, hr,
      readBuffer_of_full dev recs _ hlen]
  · intro hr
    simp [read_console_input, hn, read_input, hr]

/-- Claim C6 witness: a full two-record batch converts in order, and a
failing read forwards the platform error. -/
theorem read_console_input_batch_witness :
    read_console_input consoleA twoEventDevice
      = (.ok (2, [.key 42, .mouse 9]),
         [.getNumberOfConsoleInputEvents 7, .readConsoleInput 7 2])
    ∧ read_console_input consoleA failReadDevice
      = (.error (.deviceCallFailed 5),
         [.getNumberOfConsoleInputEvents 7, .readConsoleInput 7 3]) := by
  constructor
  · exact (read_console_input_batch consoleA twoEventDevice 2 rfl
      (by decide)).1 [keyRecord, mouseRecord] rfl rfl
  · exact (read_console_input_batch consoleA failReadDevice 3 rfl
      (by decide)).2 rfl

/-- Claim C7: each fill operation either forwards the platform's last
error when the device rejects the call, or returns the device-reported
written count unchanged; whenever the device reports a (possibly partial)
count at most `n`, that partial count is returned as a success, never an
error. -/
theorem fill_reports_device_count (c : Console) (dev : Device)
    (start : Coord) (n : Nat) (ch : Nat) (attr : Nat) :
    (∀ w, dev.fillCharResult = some w → w ≤ n →
      (fill_whit_character c dev start n ch).1 = .ok w ∧ w ≤ n)
    ∧ (dev.fillCharResult = none →
      (fill_whit_character c dev start n ch).1
        = .error (.deviceCallFailed dev.lastError))
    ∧ (∀ w, dev.fillAttrResult = some w → w ≤ n →
      (fill_whit_attribute c dev start n attr).1 = .ok w ∧ w ≤ n)
    ∧ (dev.fillAttrResult = none →
      (fill_whit_attribute c dev start n attr).1
        = .error (.deviceCallFailed dev.lastError)) := by
  refine ⟨fun w hw hle => ⟨?_, hle⟩, fun hw => ?_, fun w hw hle => ⟨?_, hle⟩,
    fun hw => ?_⟩ <;>
    simp [fill_whit_character, fill_whit_attribute, hw]

/-- Claim C7 witness: a device reporting 3 of 5 requested cells written
yields a partial success, and a rejected attribute fill forwards the last
error. -/
theorem fill_reports_device_count_witness :
    (fill_whit_character consoleA baseDevice { x := 0, y := 0 } 5 65).1
      = .ok 3
    ∧ (fill_whit_attribute consoleA baseDevice { x := 0, y := 0 } 5 7).1
      = .error (.deviceCallFailed 5) := by
  have h := fill_reports_device_count consoleA baseDevice
    { x := 0, y := 0 } 5 65 7
  exact ⟨(h.1 3 rfl (by decide)).1, h.2.2.2 rfl⟩

/-- Claim C8: `largest_window_size` is total — its result type carries no
error at all; it returns the conversion of whatever native coordinate the
device reports, and when the underlying query fails (the device reports
its default/zero coordinates) the zero `Coord` is returned with no error
surfaced. -/
theorem largest_window_size_total (c : Console) (dev : Device) :
    largest_window_size c dev
      = (Coord.fromNative dev.largestWindow,
         [.getLargestConsoleWindowSize c.handle.raw])
    ∧ (dev.largestWindow = { x := 0, y := 0 } →
      (largest_window_size c dev).1 = { x := 0, y := 0 }) := by
  refine ⟨rfl, fun h => ?_⟩
  simp [largest_window_size, h, Coord.fromNative]

/-- Claim C8 witness: on a device whose query yields the default/zero
coordinates, the zero `Coord` comes back directly. -/
theorem largest_window_size_total_witness :
    (largest_window_size consoleA baseDevice).1 = { x := 0, y := 0 } :=
  (largest_window_size_total consoleA baseDevice).2 rfl

/-- Claim C10: the byte `fill_whit_character` hands to the device is
`char_as_i8` of the code point: the signed 8-bit value congruent to the
code point modulo 256.  Code points below 128 pass through unchanged;
any code point of 128 or more is changed. -/
theorem fill_char_truncates_to_i8 (c : Console) (dev : Device)
    (start : Coord) (n : Nat) (cp : Nat) :
    (fill_whit_character c dev start n cp).2
      = [.fillChar c.handle.raw (COORD.fromCoord start) n (char_as_i8 cp)]
    ∧ (cp < 128 → char_as_i8 cp = cp)
    ∧ (128 ≤ cp → char_as_i8 cp ≠ (cp : Int))
    ∧ char_as_i8 cp % 256 = (cp : Int) % 256
    ∧ -128 ≤ char_as_i8 cp ∧ char_as_i8 cp < 128 := by
  constructor
  · unfold fill_whit_character
    cases dev.fillCharResult <;> rfl
  · unfold char_as_i8
    refine ⟨fun h => ?_, fun h => ?_, ?_, ?_, ?_⟩ <;> split <;> omega

/-- Claim C10 witness: code point 233 (é) is handed to the device as the
signed byte -23, not 233. -/
theorem fill_char_truncates_to_i8_witness :
    128 ≤ 233
    ∧ char_as_i8 233 ≠ (233 : Int)
    ∧ char_as_i8 233 = -23
    ∧ (fill_whit_character consoleA baseDevice { x := 0, y := 0 } 1 233).2
      = [.fillChar 7 { x := 0, y := 0 } 1 (char_as_i8 233)] := by
  have h := fill_char_truncates_to_i8 consoleA baseDevice
    { x := 0, y := 0 } 1 233
  exact ⟨by norm_num, h.2.2.1 (by norm_num), by decide, h.1⟩

/-- Every call `number_of_console_input_events` issues targets the
console's own handle and is not a handle close. -/
theorem number_calls_ok (c : Console) (dev : Device) :
    ∀ call ∈ (number_of_console_input_events c dev).2,
      call.targetHandle = c.handle.raw ∧ call.isClose = false := by
  unfold number_of_console_input_events
  cases dev.pendingCount <;>
    simp [DeviceCall.targetHandle, DeviceCall.isClose]

/-- Every call `read_console_input` issues targets the console's own
handle and is not a handle close. -/
theorem read_console_calls_ok (c : Console) (dev : Device) :
    ∀ call ∈ (read_console_input c dev).2,
      call.targetHandle = c.handle.raw ∧ call.isClose = false := by
  unfold read_console_input
  rcases dev.pendingCount with _ | (_ | k) <;>
    simp [read_input_calls, DeviceCall.targetHandle, DeviceCall.isClose]

/-- Every call `read_single_input_event` issues targets the console's own
handle and is not a handle close. -/
theorem read_single_calls_ok (c : Console) (dev : Device) :
    ∀ call ∈ (read_single_input_event c dev).2,
      call.targetHandle = c.handle.raw ∧ call.isClose = false := by
  unfold read_single_input_event read_input
  rcases dev.pendingCount with _ | (_ | k) <;>
    rcases dev.readResult 1 with _ | w <;>
      simp [DeviceCall.targetHandle, DeviceCall.isClose]

/-- Every call `write_char_buffer` issues targets the console's own handle
and is not a handle close. -/
theorem write_calls_ok (c : Console) (dev : Device) (buf : List Nat) :
    ∀ call ∈ (write_char_buffer c dev buf).2,
      call.targetHandle = c.handle.raw ∧ call.isClose = false := by
  unfold write_char_buffer
  rcases utf8Decode buf with _ | cps <;>
    rcases dev.writeConsoleResult with _ | w <;>
      simp [DeviceCall.targetHandle, DeviceCall.isClose]

/-- Every call the fill operations issue targets the console's own handle
and is not a handle close. -/
theorem fill_calls_ok (c : Console) (dev : Device) (start : Coord) (n : Nat)
    (ch : Nat) (attr : Nat) :
    (∀ call ∈ (fill_whit_character c dev start n ch).2,
      call.targetHandle = c.handle.raw ∧ call.isClose = false)
    ∧ (∀ call ∈ (fill_whit_attribute c dev start n attr).2,
      call.targetHandle = c.handle.raw ∧ call.isClose = false) := by
  unfold fill_whit_character fill_whit_attribute
  constructor <;>
    [rcases dev.fillCharResult with _ | w; rcases dev.fillAttrResult with _ | w] <;>
      simp [DeviceCall.targetHandle, DeviceCall.isClose]

/-- Every call of `largest_window_size` and `set_text_attribute` targets
the console's own handle and is not a handle close. -/
theorem misc_calls_ok (c : Console) (dev : Device) (value : Nat)
    (success : Bool) :
    (∀ call ∈ (largest_window_size c dev).2,
      call.targetHandle = c.handle.raw ∧ call.isClose = false)
    ∧ (∀ call ∈ (set_text_attribute c dev value success).2,
      call.targetHandle = c.handle.raw ∧ call.isClose = false) := by
  unfold largest_window_size set_text_attribute
  constructor
  · simp [DeviceCall.targetHandle, DeviceCall.isClose]
  · cases success <;> simp [DeviceCall.targetHandle, DeviceCall.isClose]

/-- Claim C9: the two conversion constructors are total and wrap exactly
the given handle (the raw identifier being wrapped into a `Handle` first);
a `Console` consists of that single `Handle` field and nothing else; and
every device call issued by any operation targets that handle and never
closes it.  The operations are pure functions of the console and the
device oracle, so no operation mutates the `Console`. -/
theorem console_wraps_single_handle :
    (∀ h, Console.fromHandle h = { handle := h })
    ∧ (∀ r, Console.fromRawHandle r = { handle := Handle.fromRaw r })
    ∧ (∀ c : Console, c = { handle := c.handle })
    ∧ (∀ c dev buf start n ch attr value success,
        ∀ call ∈ consoleOpCalls c dev buf start n ch attr value success,
          call.targetHandle = c.handle.raw ∧ call.isClose = false) := by
  refine ⟨fun h => rfl, fun r => rfl, fun c => rfl, ?_⟩
  intro c dev buf start n ch attr value success call hmem
  simp only [consoleOpCalls, List.mem_append] at hmem
  rcases hmem with ((((((h | h) | h) | h) | h) | h) | h) | h
  · exact number_calls_ok c dev call h
  · exact read_console_calls_ok c dev call h
  · exact read_single_calls_ok c dev call h
  · exact write_calls_ok c dev buf call h
  · exact (fill_calls_ok c dev start n ch attr).1 call h
  · exact (fill_calls_ok c dev start n ch attr).2 call h
  · exact (misc_calls_ok c dev value success).1 call h
  · exact (misc_calls_ok c dev value success).2 call h

/-- Claim C9 witness: the count-query call issued by the sample console's
operations targets its handle 7 and is not a close. -/
theorem console_wraps_single_handle_witness :
    DeviceCall.getNumberOfConsoleInputEvents 7
        ∈ consoleOpCalls consoleA baseDevice [] { x := 0, y := 0 } 1 65 7 3 true
    ∧ (DeviceCall.getNumberOfConsoleInputEvents 7).targetHandle
        = consoleA.handle.raw
    ∧ (DeviceCall.getNumberOfConsoleInputEvents 7).isClose = false := by
  have h := console_wraps_single_handle.2.2.2 consoleA baseDevice []
    { x := 0, y := 0 } 1 65 7 3 true
    (DeviceCall.getNumberOfConsoleInputEvents 7) (by decide)
  exact ⟨by decide, h.1, h.2⟩

end CrosstermWinapi
